import Mathlib

/-
Verification of the quickwit query-compilation layer (quickwit-query and
quickwit-doc-mapper crates): shallow embedding of the query AST, schema
adapter, node compiler, and warmup planner, together with theorems about
the frozen claims on this code.

Source files embedded:
  quickwit-doc-mapper/src/query_builder.rs
  quickwit-query/src/quickwit_query_ast/mod.rs
  quickwit-query/src/quickwit_query_ast/utils.rs
  quickwit-query/src/quickwit_query_ast/range_query.rs
  quickwit-query/src/quickwit_query_ast/user_text_query.rs
  quickwit-query/src/lib.rs

Parts of the crate that are not in the excerpt (visitor.rs, bool_query.rs,
term_query.rs, term_set_query.rs, phrase_query.rs, tantivy_query_ast.rs,
error.rs, json_literal.rs) and external collaborators (the tantivy schema,
tokenizer registry and term representation) are modelled from the spec;
each such definition carries a doc comment saying so.
-/

namespace Quickwit

/-- Floats are carried opaquely by their textual representation: no claim in
this development depends on floating-point semantics. -/
structure F64 where
  val : String
deriving DecidableEq, Repr

/-- Modelled from the spec: json_literal.rs (missing from src). `JsonLiteral`
is a closed variant over string, signed integer, unsigned integer, float and
boolean, produced by deserializing untyped request input (spec section 3). -/
inductive JsonLiteral where
  | str (s : String)
  | sint (i : Int)
  | uint (n : Nat)
  | boolLit (b : Bool)
  | floatLit (x : F64)
deriving DecidableEq, Repr

/-- Range bound, as in `std::ops::Bound` (spec section 3: `Bound<T>` is one of
Included, Excluded, Unbounded). -/
inductive Bound (α : Type) where
  | included (a : α)
  | excluded (a : α)
  | unbounded
deriving DecidableEq, Repr

/-- Modelled from the spec: not_nan_f32.rs (missing from src). A boost factor
that is guaranteed non-NaN at construction time; carried opaquely since no
claim depends on its numeric value. -/
structure NotNanF32 where
  val : String
deriving DecidableEq, Repr

/-- Modelled from the spec: the free-text default operator (lib.rs
`DefaultOperator`, AND / OR). -/
inductive DefaultOperator where
  | andOp
  | orOp
deriving DecidableEq, Repr

/-- A text analyzer is the external tokenizer collaborator: it maps input text
to a list of (position, token text) pairs (spec section 6: tokenizer
registry). -/
abbrev Analyzer := String → List (Nat × String)

/-- Modelled from the spec: tantivy `TextOptions`. `analyzer` is the result of
composing `get_indexing_options()` with the tokenizer-registry lookup done by
`get_tokenizer` in utils.rs: `none` means either no indexing options or an
unknown tokenizer name, both treated as "untokenized". -/
structure TextOptions where
  analyzer : Option Analyzer

/-- Modelled from the spec: tantivy `JsonObjectOptions`, with the analyzer
resolved through the registry as in `get_tokenizer_from_json_option`, plus the
expand-dots flag. -/
structure JsonObjectOptions where
  analyzer : Option Analyzer
  expand_dots : Bool

/-- Modelled from the spec: tantivy `FieldType` (the concrete type of a schema
field), with the constructors used by utils.rs and range_query.rs. -/
inductive FieldType where
  | str (text_options : TextOptions)
  | u64
  | i64
  | f64
  | bool
  | date
  | facet
  | bytes
  | jsonObject (json_options : JsonObjectOptions)
  | ipAddr

/-- Modelled from the spec: tantivy `Type`, the value-type tag returned by
`FieldType::value_type()`. -/
inductive ValueType where
  | str
  | u64
  | i64
  | f64
  | bool
  | date
  | facet
  | bytes
  | json
  | ipAddr
deriving DecidableEq, Repr

/-- The `FieldType::value_type()` tag of a field type. -/
def FieldType.value_type : FieldType → ValueType
  | .str _ => .str
  | .u64 => .u64
  | .i64 => .i64
  | .f64 => .f64
  | .bool => .bool
  | .date => .date
  | .facet => .facet
  | .bytes => .bytes
  | .jsonObject _ => .json
  | .ipAddr => .ipAddr

/-- Whether the field type is `Str`, as tested by
`matches!(field_type, FieldType::Str(_))` in validate_sort_by_field. -/
def FieldType.is_str : FieldType → Bool
  | .str _ => true
  | _ => false

/-- Modelled from the spec: tantivy `FieldEntry` — a field's name, concrete
type and flags (fast / fieldnorms), as consulted by the node compilers and the
sort validators. -/
structure FieldEntry where
  name : String
  field_type : FieldType
  is_fast : Bool
  has_fieldnorms : Bool

instance : Inhabited FieldEntry := ⟨⟨"", .u64, false, false⟩⟩

/-- A field handle is an index into the schema's field list (tantivy `Field`
wraps a field id). -/
abbrev Field := Nat

/-- Modelled from the spec: the tantivy schema — the field catalog queried by
path resolution (spec section 6), never mutated here. -/
structure Schema where
  fields : List FieldEntry

/-- Index of the first entry with the given exact name. -/
def field_index_aux (name : String) : List FieldEntry → Nat → Option Field
  | [], _ => none
  | e :: rest, i => if e.name = name then some i else field_index_aux name rest (i + 1)

/-- Modelled from the spec: `Schema::get_field` — exact-name lookup in the
field catalog.  -/
def Schema.get_field (schema : Schema) (name : String) : Option Field :=
  field_index_aux name schema.fields 0

/-- Modelled from the spec: `Schema::get_field_entry`. The handle always comes
from a successful lookup, so the default entry is never observed. -/
def Schema.get_field_entry (schema : Schema) (f : Field) : FieldEntry :=
  schema.fields.getD f default

/-- Modelled from the spec: `Schema::get_field_name`. -/
def Schema.get_field_name (schema : Schema) (f : Field) : String :=
  (schema.get_field_entry f).name

/-- All ways to split a character list at a dot: `(p, s)` is in the result iff
the input is `p ++ '.' :: s`. Ordered by split position ascending. -/
def dot_splits : List Char → List (List Char × List Char)
  | [] => []
  | c :: rest =>
    let tail := (dot_splits rest).map (fun ps => (c :: ps.1, ps.2))
    if c = '.' then ([], rest) :: tail else tail

/-- Modelled from the spec: tantivy `Schema::find_field` — resolve a dotted
path by trying the full path as an exact field name first, then the longest
dotted proper prefixes, returning the matched field and the residual suffix
(spec section 4.1, resolution order (a)). -/
def Schema.find_field (schema : Schema) (full_path : String) : Option (Field × String) :=
  match schema.get_field full_path with
  | some f => some (f, "")
  | none =>
    (dot_splits full_path.toList).reverse.findSome?
      (fun ps =>
        match schema.get_field (String.mk ps.1) with
        | some f => some (f, String.mk ps.2)
        | none => none)

/-- Modelled from the spec / usage in utils.rs: the concrete value carried by
a tantivy `Term` (`Term::from_field_u64`, `from_field_text`, ..., and the
JSON term writer values). -/
inductive TermValue where
  | u64_v (n : Nat)
  | i64_v (i : Int)
  | f64_v (x : F64)
  | bool_v (b : Bool)
  | date_v (s : String)
  | str_v (s : String)
  | ip_v (s : String)
  | json_fast_v (path : String) (s : String)
  | json_str_v (path : String) (s : String)
deriving DecidableEq, Repr

/-- Modelled from the spec: a tantivy `Term` — a field handle plus a concrete
typed value. `Term::field()` is the `field` projection. -/
structure Term where
  field : Field
  value : TermValue
deriving DecidableEq, Repr

/-- Modelled from error.rs (missing from src): the `InvalidQuery` taxonomy,
with the exact variants and payloads used by the files under src (spec
section 7). -/
inductive InvalidQuery where
  | field_does_not_exist (full_path : String)
  | json_field_root_not_searchable (full_path : String)
  | invalid_search_term (expected_value_type : String) (field_name : String) (value : String)
  | invalid_boundary (expected_value_type : String) (field_name : String)
  | schema_error (msg : String)
  | range_query_not_supported_for_field (value_type : String) (field_name : String)
  | user_query_not_parsed
deriving DecidableEq, Repr

/-- Modelled from the spec: term_query.rs (missing from src). A single-field
equality match: `Term { field, value }` (spec section 3; the optional
phrase-marker flag is omitted, no claim depends on it). -/
structure TermQuery where
  field : String
  value : String
deriving DecidableEq, Repr

/-- Modelled from the spec: term_set_query.rs (missing from src). A mapping
from field name to a set of literal values, "field IN [v1, v2, ...]"; the
map and the value sets are modelled as association lists. -/
structure TermSetQuery where
  terms_per_field : List (String × List String)
deriving DecidableEq, Repr

/-- Modelled from the spec: phrase_query.rs (missing from src). An ordered
sequence of tokens treated as adjacent: `Phrase { field, phrase, slop }`. -/
structure PhraseQuery where
  field : String
  phrase : String
  slop : Nat
deriving DecidableEq, Repr

/-- From range_query.rs: a range over `JsonLiteral` bounds on one field. -/
structure RangeQuery where
  field : String
  lower_bound : Bound JsonLiteral
  upper_bound : Bound JsonLiteral
deriving DecidableEq, Repr

/-- From user_text_query.rs: unparsed raw user text plus its resolution
context (default fields, default operator). -/
structure UserTextQuery where
  user_text : String
  default_fields : Option (List String)
  default_operator : DefaultOperator
deriving DecidableEq, Repr

/-- From mod.rs: the query AST. `BoolQuery`'s four clause lists are inlined
into the `bool` constructor (mod.rs `QueryAst::Bool(BoolQuery { must,
must_not, should, filter })`). -/
inductive QueryAst where
  | bool (must must_not should filter : List QueryAst)
  | term (q : TermQuery)
  | term_set (q : TermSetQuery)
  | phrase (q : PhraseQuery)
  | range (q : RangeQuery)
  | user_text (q : UserTextQuery)
  | match_all
  | match_none
  | boost (underlying : QueryAst) (boost : NotNanF32)

/-- Modelled from the spec: tantivy_query_ast.rs (missing from src). The
intermediate compiled query form: boolean combinators, boost wrappers, and
the leaf queries built by utils.rs and range_query.rs. `match_all_q` and
`match_none_q` are `TantivyQueryAst::match_all()` / `match_none()`. -/
inductive TantivyQueryAst where
  | match_all_q
  | match_none_q
  | term_q (t : Term)
  | phrase_q (terms : List (Nat × Term))
  | range_q (field : String) (value_type : ValueType)
      (lower_bound upper_bound : Bound TermValue)
  | boost_q (underlying : TantivyQueryAst) (boost : NotNanF32)
  | bool_q (must must_not should filter : List TantivyQueryAst)

/-- From utils.rs: the reserved catch-all dynamic field name. -/
def dynamic_field_name : String := "_dynamic"

/-- From utils.rs `make_term_query`: a plain term query leaf
(`TermQuery::new(term, IndexRecordOption::Basic)`). -/
def make_term_query (term : Term) : TantivyQueryAst :=
  .term_q term

/-- The path-resolution half of utils.rs `find_field_or_hit_dynamic`: try
`schema.find_field`, else fall back to the dynamic field with the entire
original path as residual sub-path. -/
def resolve_path (schema : Schema) (full_path : String) : Option (Field × String) :=
  match schema.find_field full_path with
  | some (f, p) => some (f, p)
  | none =>
    match schema.get_field dynamic_field_name with
    | some f => some (f, full_path)
    | none => none

/-- From utils.rs `find_field_or_hit_dynamic`: resolve a dotted field path
against the schema (with dynamic-field fallback, via `resolve_path`), then
reject a JSON object root addressed with an empty residual path and a
non-JSON field addressed with a non-empty residual path. -/
def find_field_or_hit_dynamic (full_path : String) (schema : Schema) :
    Except InvalidQuery (Field × FieldEntry × String) :=
  match resolve_path schema full_path with
  | none => .error (.field_does_not_exist full_path)
  | some (field, path) =>
    let field_entry := schema.get_field_entry field
    let typ := field_entry.field_type.value_type
    if path.isEmpty then
      if typ = .json then
        .error (.json_field_root_not_searchable full_path)
      else
        .ok (field, field_entry, path)
    else
      if typ ≠ .json then
        .error (.field_does_not_exist full_path)
      else
        .ok (field, field_entry, path)

/-- From utils.rs `parse_val::<u64>`: parse failure maps to
`InvalidSearchTerm`. The external `u64::from_str` is modelled by
`String.toNat?`. -/
def parse_u64 (value : String) (field_name : String) : Except InvalidQuery Nat :=
  match value.toNat? with
  | some n => .ok n
  | none => .error (.invalid_search_term "u64" field_name value)

/-- From utils.rs `parse_val::<i64>`; the external `i64::from_str` is
modelled by `String.toInt?`. -/
def parse_i64 (value : String) (field_name : String) : Except InvalidQuery Int :=
  match value.toInt? with
  | some i => .ok i
  | none => .error (.invalid_search_term "i64" field_name value)

/-- Modelled from the spec: the external `f64::from_str`; accepts integer
shapes and strings containing a decimal point, carrying the text opaquely. No
claim depends on float parsing. -/
def parse_f64_str (value : String) : Option F64 :=
  if value.toInt?.isSome || value.any (fun c => c = '.') then some ⟨value⟩ else none

/-- From utils.rs `parse_val::<bool>`; `bool::from_str` accepts exactly
"true" and "false". -/
def parse_bool (value : String) (field_name : String) : Except InvalidQuery Bool :=
  if value = "true" then .ok true
  else if value = "false" then .ok false
  else .error (.invalid_search_term "bool" field_name value)

/-- Modelled from the spec: the external RFC 3339 datetime parser
(`OffsetDateTime::parse(value, &Rfc3339)`); modelled as accepting strings
containing a 'T' separator and carrying the text opaquely. No claim depends
on datetime parsing. -/
def parse_rfc3339 (value : String) : Option String :=
  if value.any (fun c => c = 'T') then some value else none

/-- Modelled from the spec: the external `IpAddr::from_str` followed by
`into_ipv6_addr`; modelled as accepting strings containing '.' or ':' and
carrying the text opaquely. No claim depends on IP parsing. -/
def parse_ip (value : String) : Option String :=
  if value.any (fun c => c = '.' || c = ':') then some value else none

/-- Modelled from the spec: tantivy `convert_to_fast_value_and_get_term` —
attempt a typed (numeric / bool) interpretation of raw text under a JSON
path, yielding a fast-value term when it succeeds (external json_utils
collaborator). -/
def convert_to_fast_value_term (field : Field) (json_path : String) (text : String) :
    Option Term :=
  if text.toInt?.isSome || text = "true" || text = "false" then
    some ⟨field, .json_fast_v json_path text⟩
  else
    none

/-- From utils.rs `compute_tantivy_ast_query_for_json`: combine a typed
fast-value interpretation and a (tokenized or verbatim) text interpretation
as should-alternatives; an empty token stream short-circuits to match-none
(the early return in the source). The expand-dots flag only affects the
external JSON term writer's path encoding and is not modelled. -/
def compute_tantivy_ast_query_for_json (field : Field) (json_path : String)
    (text : String) (tokenize : Bool) (json_options : JsonObjectOptions) :
    TantivyQueryAst :=
  let fast_should : List TantivyQueryAst :=
    match convert_to_fast_value_term field json_path text with
    | some term => [make_term_query term]
    | none => []
  let text_analyzer_opt : Option Analyzer :=
    if tokenize then json_options.analyzer else none
  match text_analyzer_opt with
  | some text_analyzer =>
    let terms : List (Nat × Term) :=
      (text_analyzer text).map (fun tok => (tok.1, ⟨field, .json_str_v json_path tok.2⟩))
    match terms with
    | [] => .match_none_q
    | [t1] => .bool_q [] [] (fast_should ++ [make_term_query t1.2]) []
    | ts => .bool_q [] [] (fast_should ++ [.phrase_q ts]) []
  | none =>
    .bool_q [] []
      (fast_should ++ [make_term_query ⟨field, .json_str_v json_path text⟩]) []

/-- From utils.rs `compute_query_with_field`: dispatch on the resolved
field's concrete type to build a single equality match (spec section 4.2,
Term). The `Facet` and `Bytes` arms are `todo!()` panics in the source;
they are modelled as schema errors (a loud failure). -/
def compute_query_with_field (field : Field) (field_entry : FieldEntry)
    (json_path : String) (value : String) (tokenize : Bool) :
    Except InvalidQuery TantivyQueryAst :=
  match field_entry.field_type with
  | .u64 =>
    match parse_u64 value field_entry.name with
    | .error e => .error e
    | .ok val => .ok (make_term_query ⟨field, .u64_v val⟩)
  | .i64 =>
    match parse_i64 value field_entry.name with
    | .error e => .error e
    | .ok val => .ok (make_term_query ⟨field, .i64_v val⟩)
  | .f64 =>
    match parse_f64_str value with
    | none => .error (.invalid_search_term "f64" field_entry.name value)
    | some val => .ok (make_term_query ⟨field, .f64_v val⟩)
  | .bool =>
    match parse_bool value field_entry.name with
    | .error e => .error e
    | .ok val => .ok (make_term_query ⟨field, .bool_v val⟩)
  | .date =>
    match parse_rfc3339 value with
    | none => .error (.invalid_search_term "datetime" field_entry.name value)
    | some dt => .ok (make_term_query ⟨field, .date_v dt⟩)
  | .str text_options =>
    let text_analyzer_opt : Option Analyzer :=
      if tokenize then text_options.analyzer else none
    match text_analyzer_opt with
    | some text_analyzer =>
      let terms : List (Nat × Term) :=
        (text_analyzer value).map (fun tok => (tok.1, ⟨field, .str_v tok.2⟩))
      match terms with
      | [] => .ok .match_none_q
      | [t1] => .ok (make_term_query t1.2)
      | ts => .ok (.phrase_q ts)
    | none => .ok (make_term_query ⟨field, .str_v value⟩)
  | .ipAddr =>
    match parse_ip value with
    | none => .error (.invalid_search_term "ip_address" field_entry.name value)
    | some ip_v6 => .ok (make_term_query ⟨field, .ip_v ip_v6⟩)
  | .jsonObject json_options =>
    .ok (compute_tantivy_ast_query_for_json field json_path value tokenize json_options)
  | .facet => .error (.schema_error ("unimplemented: facet term query on field `"
      ++ field_entry.name ++ "`"))
  | .bytes => .error (.schema_error ("unimplemented: bytes term query on field `"
      ++ field_entry.name ++ "`"))

/-- From utils.rs `compute_query`: resolve the path, then dispatch on the
resolved field. -/
def compute_query (full_path : String) (value : String) (tokenize : Bool)
    (schema : Schema) : Except InvalidQuery TantivyQueryAst :=
  match find_field_or_hit_dynamic full_path schema with
  | .error e => .error e
  | .ok (field, field_entry, path) =>
    compute_query_with_field field field_entry path value tokenize

/-- Modelled from the spec: json_literal.rs `InterpretUserInput for u64`
(missing from src) — coercion of a `JsonLiteral` to an unsigned integer. -/
def interpret_u64 : JsonLiteral → Option Nat
  | .uint n => some n
  | .sint i => if 0 ≤ i then some i.toNat else none
  | .str s => s.toNat?
  | _ => none

/-- Modelled from the spec: json_literal.rs `InterpretUserInput for i64`. -/
def interpret_i64 : JsonLiteral → Option Int
  | .uint n => some (Int.ofNat n)
  | .sint i => some i
  | .str s => s.toInt?
  | _ => none

/-- Modelled from the spec: json_literal.rs `InterpretUserInput for f64`;
floats are carried opaquely. -/
def interpret_f64 : JsonLiteral → Option F64
  | .uint n => some ⟨toString n⟩
  | .sint i => some ⟨toString i⟩
  | .floatLit x => some x
  | .str s => parse_f64_str s
  | _ => none

/-- Modelled from the spec: json_literal.rs `InterpretUserInput for String`
(string-typed fast-field range bounds). -/
def interpret_str : JsonLiteral → Option String
  | .str s => some s
  | _ => none

/-- Modelled from the spec: json_literal.rs `InterpretUserInput for
DateTime` — RFC 3339 text. -/
def interpret_date : JsonLiteral → Option String
  | .str s => parse_rfc3339 s
  | _ => none

/-- Modelled from the spec: json_literal.rs `InterpretUserInput for
Ipv6Addr`. -/
def interpret_ip : JsonLiteral → Option String
  | .str s => parse_ip s
  | _ => none

/-- From range_query.rs `convert_bound`: coerce one `Bound<JsonLiteral>`
through the field type's interpretation; a failed coercion is
`InvalidBoundary` carrying the expected type name and the field name. The
Rust generic `T::interpret` / `T::name` pair is passed explicitly. -/
def convert_bound {α : Type} (interpret : JsonLiteral → Option α)
    (type_name : String) (bound : Bound JsonLiteral) (field_name : String) :
    Except InvalidQuery (Bound α) :=
  match bound with
  | .included v =>
    match interpret v with
    | some val => .ok (.included val)
    | none => .error (.invalid_boundary type_name field_name)
  | .excluded v =>
    match interpret v with
    | some val => .ok (.excluded val)
    | none => .error (.invalid_boundary type_name field_name)
  | .unbounded => .ok .unbounded

/-- Convert both bounds of a range query at a given interpretation, keeping
the value injected into `TermValue` for the compiled range leaf. -/
def convert_both_bounds {α : Type} (interpret : JsonLiteral → Option α)
    (inject : α → TermValue) (type_name : String) (rq : RangeQuery)
    (field_name : String) : Except InvalidQuery (Bound TermValue × Bound TermValue) :=
  match convert_bound interpret type_name rq.lower_bound field_name with
  | .error e => .error e
  | .ok lower =>
    match convert_bound interpret type_name rq.upper_bound field_name with
    | .error e => .error e
    | .ok upper =>
      let map_bound : Bound α → Bound TermValue := fun b =>
        match b with
        | .included a => .included (inject a)
        | .excluded a => .excluded (inject a)
        | .unbounded => .unbounded
      .ok (map_bound lower, map_bound upper)

/-- From range_query.rs `RangeQuery::into_tantivy_ast_impl`: resolve the
field; a non-fast field is a `SchemaError`; then build typed bounds per the
field's concrete type, with `Bool` and `Facet` rejected as
`RangeQueryNotSupportedForField`. The `Bytes` and `JsonObject` arms are
`todo!()` panics in the source, modelled as schema errors (a loud failure).
The compiled leaf carries `self.field` (the query path), as in
`RangeQuery::new_str_bounds(self.field.clone(), ..)`. -/
def range_query_into_tantivy_ast_impl (rq : RangeQuery) (schema : Schema)
    (_with_validation : Bool) : Except InvalidQuery TantivyQueryAst :=
  match find_field_or_hit_dynamic rq.field schema with
  | .error e => .error e
  | .ok (_field, field_entry, _path) =>
    if !field_entry.is_fast then
      .error (.schema_error ("Range queries are only supported for fast fields. (`"
        ++ field_entry.name ++ "` is not a fast field)"))
    else
      match field_entry.field_type with
      | .str _ =>
        match convert_both_bounds interpret_str .str_v "str" rq field_entry.name with
        | .error e => .error e
        | .ok (lower, upper) => .ok (.range_q rq.field .str lower upper)
      | .u64 =>
        match convert_both_bounds interpret_u64 .u64_v "u64" rq field_entry.name with
        | .error e => .error e
        | .ok (lower, upper) => .ok (.range_q rq.field .u64 lower upper)
      | .i64 =>
        match convert_both_bounds interpret_i64 .i64_v "i64" rq field_entry.name with
        | .error e => .error e
        | .ok (lower, upper) => .ok (.range_q rq.field .i64 lower upper)
      | .f64 =>
        match convert_both_bounds interpret_f64 .f64_v "f64" rq field_entry.name with
        | .error e => .error e
        | .ok (lower, upper) => .ok (.range_q rq.field .f64 lower upper)
      | .bool =>
        .error (.range_query_not_supported_for_field "bool" field_entry.name)
      | .date =>
        match convert_both_bounds interpret_date .date_v "date" rq field_entry.name with
        | .error e => .error e
        | .ok (lower, upper) => .ok (.range_q rq.field .date lower upper)
      | .facet =>
        .error (.range_query_not_supported_for_field "facet" field_entry.name)
      | .bytes => .error (.schema_error ("unimplemented: bytes range query on field `"
          ++ field_entry.name ++ "`"))
      | .jsonObject _ => .error (.schema_error ("unimplemented: json range query on field `"
          ++ field_entry.name ++ "`"))
      | .ipAddr =>
        match convert_both_bounds interpret_ip .ip_v "ip" rq field_entry.name with
        | .error e => .error e
        | .ok (lower, upper) => .ok (.range_q rq.field .ipAddr lower upper)

/-- From user_text_query.rs `UserTextQuery::into_tantivy_ast_impl`:
compiling an unparsed user-text node is always the distinct error
`UserQueryNotParsed`, for every schema, search-field list and validation
mode. -/
def user_text_into_tantivy_ast_impl (_q : UserTextQuery) (_schema : Schema)
    (_default_search_fields : List String) (_with_validation : Bool) :
    Except InvalidQuery TantivyQueryAst :=
  .error .user_query_not_parsed

/-- Whether an `Except` result is an error (`Result::is_err`). -/
def result_is_err {ε α : Type} : Except ε α → Bool
  | .error _ => true
  | .ok _ => false

/-- Whether an `Except` result is a success (`Result::is_ok`). -/
def result_is_ok {ε α : Type} : Except ε α → Bool
  | .error _ => false
  | .ok _ => true

/-- From mod.rs `IntoTantivyAst::into_tantivy_ast_call` (the single entry
wrapper): if validation is disabled and the per-node compile failed,
substitute a match-none result; otherwise return the per-node result
unchanged. -/
def apply_lenient (with_validation : Bool)
    (res : Except InvalidQuery TantivyQueryAst) : Except InvalidQuery TantivyQueryAst :=
  if !with_validation && result_is_err res then .ok .match_none_q else res

/-- Modelled from the spec: term_query.rs (missing from src) — a Term node
resolves its field and dispatches on the concrete type with tokenization
enabled, which is exactly utils.rs `compute_query` (spec section 4.2,
Term). -/
def term_query_into_tantivy_ast_impl (q : TermQuery) (schema : Schema)
    (_default_search_fields : List String) (_with_validation : Bool) :
    Except InvalidQuery TantivyQueryAst :=
  compute_query q.field q.value true schema

/-- Modelled from the spec: phrase_query.rs (missing from src) — resolve the
field (must be text), tokenize the phrase, and treat fewer than two token
positions as a plain term match rather than erroring; zero tokens is a
guaranteed no-match (spec section 4.2, Phrase). -/
def phrase_query_into_tantivy_ast_impl (q : PhraseQuery) (schema : Schema)
    (_with_validation : Bool) : Except InvalidQuery TantivyQueryAst :=
  match find_field_or_hit_dynamic q.field schema with
  | .error e => .error e
  | .ok (field, field_entry, _path) =>
    match field_entry.field_type with
    | .str text_options =>
      match text_options.analyzer with
      | some text_analyzer =>
        let terms : List (Nat × Term) :=
          (text_analyzer q.phrase).map (fun tok => (tok.1, ⟨field, .str_v tok.2⟩))
        match terms with
        | [] => .ok .match_none_q
        | [t1] => .ok (make_term_query t1.2)
        | ts => .ok (.phrase_q ts)
      | none => .ok (make_term_query ⟨field, .str_v q.phrase⟩)
    | _ => .error (.schema_error ("Phrase queries are only supported on text fields. (`"
        ++ field_entry.name ++ "`)"))

/-- Compile the value list of one term-set field: each literal compiled as an
untokenized equality match against the already-resolved field. -/
def term_set_values_impl (field : Field) (field_entry : FieldEntry) (path : String) :
    List String → Except InvalidQuery (List TantivyQueryAst)
  | [] => .ok []
  | v :: rest =>
    match compute_query_with_field field field_entry path v false with
    | .error e => .error e
    | .ok q =>
      match term_set_values_impl field field_entry path rest with
      | .error e => .error e
      | .ok qs => .ok (q :: qs)

/-- Compile the per-field entries of a term-set query: resolve each field
once and emit a disjunction of equality matches over its coerced literals;
an empty value set compiles to a guaranteed no-match for that field. -/
def term_set_fields_impl (schema : Schema) :
    List (String × List String) → Except InvalidQuery (List TantivyQueryAst)
  | [] => .ok []
  | (field_name, values) :: rest =>
    match find_field_or_hit_dynamic field_name schema with
    | .error e => .error e
    | .ok (field, field_entry, path) =>
      match term_set_values_impl field field_entry path values with
      | .error e => .error e
      | .ok qs =>
        let field_ast : TantivyQueryAst :=
          match qs with
          | [] => .match_none_q
          | qs => .bool_q [] [] qs []
        match term_set_fields_impl schema rest with
        | .error e => .error e
        | .ok rest_asts => .ok (field_ast :: rest_asts)

/-- Modelled from the spec: term_set_query.rs (missing from src) — for every
(field, literal-set) pair, resolve the field once and emit a disjunction of
equality matches over the coerced literals, an empty value set compiling to
guaranteed no-match (spec section 4.2, TermSet). -/
def term_set_query_into_tantivy_ast_impl (q : TermSetQuery) (schema : Schema)
    (_with_validation : Bool) : Except InvalidQuery TantivyQueryAst :=
  match term_set_fields_impl schema q.terms_per_field with
  | .error e => .error e
  | .ok asts => .ok (.bool_q [] [] asts [])

mutual

/-- From mod.rs `QueryAst::into_tantivy_ast_impl`: dispatch per variant.
Every variant's own compile is routed through the lenient wrapper (the
source calls each sub-query's `into_tantivy_ast_call`, whose default body is
the wrapper; the wrapper is inlined here as `apply_lenient _ (..._impl ...)`).
The `Bool` arm is modelled from the spec (bool_query.rs is missing from
src): each of must / must_not / should / filter is compiled element-wise
through the wrapper and recombined. The `Boost` arm compiles its child
through the wrapper and rewraps the result, as in the source. -/
def into_tantivy_ast_impl (ast : QueryAst) (schema : Schema)
    (search_fields : List String) (with_validation : Bool) :
    Except InvalidQuery TantivyQueryAst :=
  match ast with
  | .bool must must_not should filter =>
    apply_lenient with_validation
      (match into_tantivy_ast_list must schema search_fields with_validation with
      | .error e => .error e
      | .ok must_c =>
        match into_tantivy_ast_list must_not schema search_fields with_validation with
        | .error e => .error e
        | .ok must_not_c =>
          match into_tantivy_ast_list should schema search_fields with_validation with
          | .error e => .error e
          | .ok should_c =>
            match into_tantivy_ast_list filter schema search_fields with_validation with
            | .error e => .error e
            | .ok filter_c => .ok (.bool_q must_c must_not_c should_c filter_c))
  | .term q =>
    apply_lenient with_validation
      (term_query_into_tantivy_ast_impl q schema search_fields with_validation)
  | .term_set q =>
    apply_lenient with_validation
      (term_set_query_into_tantivy_ast_impl q schema with_validation)
  | .phrase q =>
    apply_lenient with_validation
      (phrase_query_into_tantivy_ast_impl q schema with_validation)
  | .range q =>
    apply_lenient with_validation
      (range_query_into_tantivy_ast_impl q schema with_validation)
  | .user_text q =>
    apply_lenient with_validation
      (user_text_into_tantivy_ast_impl q schema search_fields with_validation)
  | .match_all => .ok .match_all_q
  | .match_none => .ok .match_none_q
  | .boost underlying boost_val =>
    match apply_lenient with_validation
        (into_tantivy_ast_impl underlying schema search_fields with_validation) with
    | .error e => .error e
    | .ok underlying_c => .ok (.boost_q underlying_c boost_val)

/-- Element-wise compilation of a clause list, each element through the
lenient wrapper (spec section 4.2: individual variants call only the wrapper
when compiling child nodes). -/
def into_tantivy_ast_list (asts : List QueryAst) (schema : Schema)
    (search_fields : List String) (with_validation : Bool) :
    Except InvalidQuery (List TantivyQueryAst) :=
  match asts with
  | [] => .ok []
  | a :: rest =>
    match apply_lenient with_validation
        (into_tantivy_ast_impl a schema search_fields with_validation) with
    | .error e => .error e
    | .ok c =>
      match into_tantivy_ast_list rest schema search_fields with_validation with
      | .error e => .error e
      | .ok cs => .ok (c :: cs)

end

/-- From mod.rs `IntoTantivyAst::into_tantivy_ast_call` for `QueryAst`: the
per-node compile wrapped by the lenient-mode policy. -/
def into_tantivy_ast_call (ast : QueryAst) (schema : Schema)
    (search_fields : List String) (with_validation : Bool) :
    Except InvalidQuery TantivyQueryAst :=
  apply_lenient with_validation
    (into_tantivy_ast_impl ast schema search_fields with_validation)

/-- The result a clause child contributes under lenient mode: its own
compile, or match-none when that compile fails. -/
def lenient_child (schema : Schema) (search_fields : List String)
    (ast : QueryAst) : TantivyQueryAst :=
  match into_tantivy_ast_impl ast schema search_fields false with
  | .ok t => t
  | .error _ => .match_none_q

/-- Whether a compiled node is the match-none constant. -/
def is_match_none : TantivyQueryAst → Bool
  | .match_none_q => true
  | _ => false

/-- Recombine already-simplified clause lists: a no-match in must or filter
makes the whole node no-match, no-match should and must-not children are
dropped, same-kind nested must / should children are flattened, and a
single-child pure wrapper collapses to its child. -/
def simplify_bool (must must_not should filter : List TantivyQueryAst) :
    TantivyQueryAst :=
  if must.any is_match_none || filter.any is_match_none then
    .match_none_q
  else
    let flatten_must : TantivyQueryAst → List TantivyQueryAst := fun a =>
      match a with
      | .bool_q inner [] [] [] => inner
      | other => [other]
    let flatten_should : TantivyQueryAst → List TantivyQueryAst := fun a =>
      match a with
      | .bool_q [] [] inner [] => inner
      | other => [other]
    let must_f := (must.map flatten_must).flatten
    let should_f := ((should.filter (fun a => !is_match_none a)).map flatten_should).flatten
    let must_not_f := must_not.filter (fun a => !is_match_none a)
    match must_f, must_not_f, should_f, filter with
    | [single], [], [], [] => single
    | [], [], [single], [] => single
    | m, mn, s, f => .bool_q m mn s f

mutual

/-- Modelled from the spec: tantivy_query_ast.rs `simplify` (missing from
src) — a once-over optimization pass: flatten nested boolean combinators of
the same kind, collapse single-child boolean wrappers, and remove no-match
branches where safe (spec section 4.2). No claim depends on its exact
output shape. -/
def simplify_ast : TantivyQueryAst → TantivyQueryAst
  | .bool_q must must_not should filter =>
    simplify_bool (simplify_list must) (simplify_list must_not)
      (simplify_list should) (simplify_list filter)
  | .boost_q underlying b => .boost_q (simplify_ast underlying) b
  | other => other

/-- Element-wise simplification of a clause list. -/
def simplify_list : List TantivyQueryAst → List TantivyQueryAst
  | [] => []
  | a :: rest => simplify_ast a :: simplify_list rest

end

/-- From mod.rs `QueryAst::build_tantivy_query`: compile through the entry
wrapper, then run the simplification pass. -/
def build_tantivy_query (ast : QueryAst) (schema : Schema)
    (search_fields : List String) (with_validation : Bool) :
    Except InvalidQuery TantivyQueryAst :=
  match into_tantivy_ast_call ast schema search_fields with_validation with
  | .error e => .error e
  | .ok t => .ok (simplify_ast t)

mutual

/-- From query_builder.rs `RangeQueryFields` together with the default
traversal of the visitor framework. The visitor framework (visitor.rs) is
missing from src and is modelled from the spec: a full pre-order traversal
descending into every child of every variant, including `Boost`'s child and
all four `Bool` clause lists (spec section 4.5); the `visit_range` override
from the source records the range node's field name. The result set is
modelled as a list whose membership is the set interface. -/
def collect_range_query_fields : QueryAst → List String
  | .bool must must_not should filter =>
    collect_range_query_fields_list must ++ collect_range_query_fields_list must_not
      ++ collect_range_query_fields_list should ++ collect_range_query_fields_list filter
  | .boost underlying _ => collect_range_query_fields underlying
  | .range rq => [rq.field]
  | _ => []

/-- Traversal of a clause list for the range-field collector. -/
def collect_range_query_fields_list : List QueryAst → List String
  | [] => []
  | a :: rest => collect_range_query_fields a ++ collect_range_query_fields_list rest

end

/-- From query_builder.rs `ExtractTermSetFields` and
`extract_term_set_query_fields`. The source impl overrides the visitor
framework's entry point `visit` itself (not the per-variant hook), and the
override's body only checks whether the given node is a `TermSet` and
returns; since `visit` is what drives recursion in the framework, no
traversal into children ever happens, and only the root node of the AST is
inspected. -/
def extract_term_set_query_fields (ast : QueryAst) : List String :=
  match ast with
  | .term_set term_set => term_set.terms_per_field.map (fun p => p.1)
  | _ => []

mutual

/-- Modelled from the spec: tantivy `Query::query_terms` — the external
compiled-term enumeration primitive (spec section 4.6): for each leaf term
report its field, the concrete term, and whether the consuming operator
needs per-occurrence position data (phrase operators do, plain term
operators do not). -/
def query_terms : TantivyQueryAst → List (Field × Term × Bool)
  | .match_all_q => []
  | .match_none_q => []
  | .term_q t => [(t.field, t, false)]
  | .phrase_q terms => terms.map (fun pt => (pt.2.field, pt.2, true))
  | .range_q _ _ _ _ => []
  | .boost_q underlying _ => query_terms underlying
  | .bool_q must must_not should filter =>
    query_terms_list must ++ query_terms_list must_not
      ++ query_terms_list should ++ query_terms_list filter

/-- Clause-list version of `query_terms`. -/
def query_terms_list : List TantivyQueryAst → List (Field × Term × Bool)
  | [] => []
  | a :: rest => query_terms a ++ query_terms_list rest

end

/-- Update the inner term → needs-position map for one report:
`entry(term).or_default() |= need_position` on an association list. -/
def update_term_entry (inner : List (Term × Bool)) (t : Term) (need_position : Bool) :
    List (Term × Bool) :=
  match inner with
  | [] => [(t, need_position)]
  | (t', b) :: rest =>
    if t' = t then (t', b || need_position) :: rest
    else (t', b) :: update_term_entry rest t need_position

/-- Update the outer field → (term → needs-position) map for one report:
`entry(field).or_default()` on an association list, then the inner update. -/
def update_terms_map (m : List (Field × List (Term × Bool))) (f : Field) (t : Term)
    (need_position : Bool) : List (Field × List (Term × Bool)) :=
  match m with
  | [] => [(f, update_term_entry [] t need_position)]
  | (f', inner) :: rest =>
    if f' = f then (f', update_term_entry inner t need_position) :: rest
    else (f', inner) :: update_terms_map rest f t need_position

/-- From query_builder.rs `build_query` (the `query.query_terms(..)` loop):
accumulate the walker's reports into field → term → needs-position, OR-ing
the flag on repeated (field, term) pairs. HashMaps are modelled as
association lists. -/
def accumulate_query_terms (reports : List (Field × Term × Bool)) :
    List (Field × List (Term × Bool)) :=
  reports.foldl (fun m r => update_terms_map m r.1 r.2.1 r.2.2) []

/-- Look up a term in the inner map. -/
def lookup_term_entry (inner : List (Term × Bool)) (t : Term) : Option Bool :=
  match inner with
  | [] => none
  | (t', b) :: rest => if t' = t then some b else lookup_term_entry rest t

/-- Look up the recorded needs-position flag of a (field, term) pair. -/
def lookup_terms_map (m : List (Field × List (Term × Bool))) (f : Field) (t : Term) :
    Option Bool :=
  match m with
  | [] => none
  | (f', inner) :: rest =>
    if f' = f then lookup_term_entry inner t else lookup_terms_map rest f t

/-- Modelled from the spec / usage in query_builder.rs: the `WarmupInfo`
prefetch plan, four fields each built independently (spec section 3). Sets
are modelled as lists whose membership is the set interface. -/
structure WarmupInfo where
  term_dict_field_names : List String
  posting_field_names : List String
  fast_field_names : List String
  terms_grouped_by_field : List (Field × List (Term × Bool))

/-- Modelled from query_builder.rs: the tagged content of the `anyhow`
errors produced by the two sort validators (`bail!` sites and the
`get_field` context). -/
inductive SortError where
  | unknown_sort_field (field_name : String)
  | sort_by_text_field (field_name : String)
  | sort_by_not_fast_field (field_name : String)
  | missing_field_norms (field_name : String)
deriving DecidableEq, Repr

/-- Modelled from the spec: the doc-mapper `QueryParserError` — wire
deserialization failures, compile-time `InvalidQuery` failures, and the
anyhow-wrapped sort validation failures (spec section 7). -/
inductive QueryParserError where
  | malformed_input (msg : String)
  | invalid_query (e : InvalidQuery)
  | anyhow_error (e : SortError)
deriving DecidableEq, Repr

/-- From query_builder.rs `validate_sort_by_field`: the `_score`
pseudo-field succeeds unconditionally before any schema lookup; otherwise
the field must exist, must not be text, and must be fast. -/
def validate_sort_by_field (field_name : String) (schema : Schema) :
    Except SortError Unit :=
  if field_name = "_score" then .ok ()
  else
    match schema.get_field field_name with
    | none => .error (.unknown_sort_field field_name)
    | some sort_by_field =>
      let sort_by_field_entry := schema.get_field_entry sort_by_field
      if sort_by_field_entry.field_type.is_str then
        .error (.sort_by_text_field field_name)
      else if !sort_by_field_entry.is_fast then
        .error (.sort_by_not_fast_field field_name)
      else
        .ok ()

/-- The per-field fieldnorms loop of `validate_sort_by_score`. -/
def check_fieldnorms (schema : Schema) : List Field → Except SortError Unit
  | [] => .ok ()
  | f :: rest =>
    if !(schema.get_field_entry f).has_fieldnorms then
      .error (.missing_field_norms (schema.get_field_name f))
    else
      check_fieldnorms schema rest

/-- From query_builder.rs `validate_sort_by_score`: every given search field
must have fieldnorms stored, else a missing-fieldnorms failure. This
function is defined in the source but never invoked by `build_query`. -/
def validate_sort_by_score (schema : Schema)
    (search_fields_opt : Option (List Field)) : Except SortError Unit :=
  match search_fields_opt with
  | none => .ok ()
  | some fields => check_fieldnorms schema fields

/-- Modelled from quickwit_proto (external): the part of `SearchRequest`
consumed by `build_query`. The wire AST arrives already deserialized (serde
is an external collaborator; a malformed wire AST fails upstream as
`malformed_input` and never reaches the steps embedded here). -/
structure SearchRequest where
  query_ast : QueryAst
  sort_by_field : Option String
  search_fields : List String

/-- From query_builder.rs `build_query`: run the pre-compile range-field
visitor on the raw AST, validate the sort field if one is given, compile the
AST (through the wrapper and the simplification pass), run the term-set
field extraction, walk the compiled query's terms, and assemble the
`WarmupInfo`. The source's 2-argument `build_tantivy_query` call carries no
explicit search-field list; the compiler's search-field parameter is unused
by every compile path embedded here and is passed as the empty list. -/
def build_query (request : SearchRequest) (schema : Schema)
    (with_validation : Bool) :
    Except QueryParserError (TantivyQueryAst × WarmupInfo) :=
  let query_ast := request.query_ast
  let fast_field_names := collect_range_query_fields query_ast
  let sort_check : Except QueryParserError Unit :=
    match request.sort_by_field with
    | some sort_by_field =>
      match validate_sort_by_field sort_by_field schema with
      | .error e => .error (.anyhow_error e)
      | .ok _ => .ok ()
    | none => .ok ()
  match sort_check with
  | .error e => .error e
  | .ok _ =>
    match build_tantivy_query query_ast schema [] with_validation with
    | .error e => .error (.invalid_query e)
    | .ok query =>
      let term_set_query_fields := extract_term_set_query_fields query_ast
      let terms_grouped_by_field := accumulate_query_terms (query_terms query)
      .ok (query,
        { term_dict_field_names := term_set_query_fields
          posting_field_names := term_set_query_fields
          fast_field_names := fast_field_names
          terms_grouped_by_field := terms_grouped_by_field })

/-- Occurrence of a node inside a query AST, at any nesting depth: a node
occurs in itself, in a `Bool` node through any of the four clause lists, and
in a `Boost` node through its child. This is the claims' notion of "anywhere
in the AST". -/
inductive OccursIn : QueryAst → QueryAst → Prop
  | refl (a : QueryAst) : OccursIn a a
  | in_must {a c : QueryAst} {must must_not should filter : List QueryAst} :
      c ∈ must → OccursIn a c → OccursIn a (.bool must must_not should filter)
  | in_must_not {a c : QueryAst} {must must_not should filter : List QueryAst} :
      c ∈ must_not → OccursIn a c → OccursIn a (.bool must must_not should filter)
  | in_should {a c : QueryAst} {must must_not should filter : List QueryAst} :
      c ∈ should → OccursIn a c → OccursIn a (.bool must must_not should filter)
  | in_filter {a c : QueryAst} {must must_not should filter : List QueryAst} :
      c ∈ filter → OccursIn a c → OccursIn a (.bool must must_not should filter)
  | in_boost {a underlying : QueryAst} {b : NotNanF32} :
      OccursIn a underlying → OccursIn a (.boost underlying b)

/-- Stated from the spec's words (refinement reference for the `Str` arm of
`compute_query_with_field`): with an active analyzer, zero tokens yields a
guaranteed no-match, exactly one token yields a plain term match on that
token, two or more yield a position-ordered phrase match over the
(position, token) pairs; with no active analyzer, a plain term match on the
literal value verbatim. -/
def str_compile_from_spec (field : Field) (analyzer_opt : Option Analyzer)
    (value : String) : TantivyQueryAst :=
  match analyzer_opt with
  | none => .term_q ⟨field, .str_v value⟩
  | some analyzer =>
    match (analyzer value).map (fun tok => (tok.1, (⟨field, .str_v tok.2⟩ : Term))) with
    | [] => .match_none_q
    | [(_, t)] => .term_q t
    | ts => .phrase_q ts

/-- Projection: the `fast_field_names` of a `build_query` result (empty on
error). -/
def fast_names_of (r : Except QueryParserError (TantivyQueryAst × WarmupInfo)) :
    List String :=
  match r with
  | .ok (_, w) => w.fast_field_names
  | .error _ => []

/-- Projection: the `term_dict_field_names` of a `build_query` result. -/
def term_dict_names_of (r : Except QueryParserError (TantivyQueryAst × WarmupInfo)) :
    List String :=
  match r with
  | .ok (_, w) => w.term_dict_field_names
  | .error _ => []

/-- Projection: the `posting_field_names` of a `build_query` result. -/
def posting_names_of (r : Except QueryParserError (TantivyQueryAst × WarmupInfo)) :
    List String :=
  match r with
  | .ok (_, w) => w.posting_field_names
  | .error _ => []

/-- Projection: the `terms_grouped_by_field` of a `build_query` result. -/
def terms_grouped_of (r : Except QueryParserError (TantivyQueryAst × WarmupInfo)) :
    List (Field × List (Term × Bool)) :=
  match r with
  | .ok (_, w) => w.terms_grouped_by_field
  | .error _ => []

/-- Projection: the compiled query of a `build_query` result (match-none on
error). -/
def compiled_query_of (r : Except QueryParserError (TantivyQueryAst × WarmupInfo)) :
    TantivyQueryAst :=
  match r with
  | .ok (q, _) => q
  | .error _ => .match_none_q

/-- Whether a field-resolution result is the `FieldDoesNotExist` error. -/
def is_field_does_not_exist_err (r : Except InvalidQuery (Field × FieldEntry × String)) :
    Bool :=
  match r with
  | .error (.field_does_not_exist _) => true
  | _ => false

/-- Whether a `build_query` result is a missing-fieldnorms failure (the
error `validate_sort_by_score` produces). -/
def is_missing_fieldnorms_error
    (r : Except QueryParserError (TantivyQueryAst × WarmupInfo)) : Bool :=
  match r with
  | .error (.anyhow_error (.missing_field_norms _)) => true
  | _ => false

/-- Whether one walker report concerns the given (field, term) pair. -/
def report_matches (f : Field) (t : Term) (r : Field × Term × Bool) : Bool :=
  decide (r.1 = f) && decide (r.2.1 = t)

/-- Whether the walker reports the given (field, term) pair at least once. -/
def pair_reported (reports : List (Field × Term × Bool)) (f : Field) (t : Term) : Bool :=
  reports.any (report_matches f t)

/-- The logical OR of the need-position flags of all reports of the given
(field, term) pair. -/
def pair_need_position_or (reports : List (Field × Term × Bool)) (f : Field)
    (t : Term) : Bool :=
  reports.any (fun r => report_matches f t r && r.2.2)

/-- The tokenizer used by the concrete witness schema: "hello world" splits
into two position-ordered tokens, the empty string into none, anything else
into a single token. -/
def witness_analyzer : Analyzer := fun s =>
  if s = "hello world" then [(0, "hello"), (1, "world")]
  else if s = "" then []
  else [(0, s)]

/-- A concrete schema used by witnesses and counterexamples, patterned on
the `make_schema` test schema of query_builder.rs: a non-fast text field
`title` (with an active analyzer), a fast boolean field `server.running`, a
fast facet field `tags`, a JSON object field `attrs`, and a fast integer
field `num`. It has no dynamic field. -/
def witness_schema : Schema :=
  ⟨[⟨"title", .str ⟨some witness_analyzer⟩, false, true⟩,
    ⟨"server.running", .bool, true, false⟩,
    ⟨"tags", .facet, true, false⟩,
    ⟨"attrs", .jsonObject ⟨none, false⟩, false, false⟩,
    ⟨"num", .u64, true, true⟩]⟩

/-- A concrete range query on the non-fast text field `title`. -/
def title_range_query : RangeQuery := ⟨"title", .unbounded, .unbounded⟩

/-- A concrete request whose AST holds a `Range` node nested under a `Boost`
inside a `Bool` must list; the range is on a non-fast field, so its branch
fails strict compilation and is replaced by match-none under lenient mode. -/
def range_under_boost_request : SearchRequest :=
  ⟨.bool [.boost (.range title_range_query) ⟨"1.0"⟩] [] [] [], none, []⟩

/-- A concrete request whose AST holds a `TermSet` node (field key `title`)
nested inside a `Bool` must list. -/
def nested_term_set_request : SearchRequest :=
  ⟨.bool [.term_set ⟨[("title", ["hello"])]⟩] [] [] [], none, []⟩

theorem apply_lenient_ok (wv : Bool) (t : TantivyQueryAst) :
    apply_lenient wv (.ok t) = .ok t := by
  cases wv <;> simp [apply_lenient, result_is_err]

theorem apply_lenient_true_eq (r : Except InvalidQuery TantivyQueryAst) :
    apply_lenient true r = r := by
  cases r <;> simp [apply_lenient, result_is_err]

theorem apply_lenient_false_ok (r : Except InvalidQuery TantivyQueryAst) :
    result_is_ok (apply_lenient false r) = true := by
  cases r <;> simp [apply_lenient, result_is_err, result_is_ok]

theorem into_tantivy_ast_list_lenient (schema : Schema) (sf : List String) :
    ∀ asts : List QueryAst,
      into_tantivy_ast_list asts schema sf false =
        .ok (asts.map (lenient_child schema sf)) := by
  intro asts
  induction asts with
  | nil => rfl
  | cons a rest ih =>
    rw [into_tantivy_ast_list]
    cases him : into_tantivy_ast_impl a schema sf false with
    | error e =>
      simp [apply_lenient, him, result_is_err, ih, lenient_child]
    | ok t =>
      simp [apply_lenient, him, result_is_err, ih, lenient_child]

theorem build_query_ok_parts (request : SearchRequest) (schema : Schema)
    (wv : Bool) (q : TantivyQueryAst) (w : WarmupInfo)
    (h : build_query request schema wv = .ok (q, w)) :
    w.fast_field_names = collect_range_query_fields request.query_ast ∧
    w.term_dict_field_names = extract_term_set_query_fields request.query_ast ∧
    w.posting_field_names = extract_term_set_query_fields request.query_ast ∧
    w.terms_grouped_by_field = accumulate_query_terms (query_terms q) := by
  cases hc : build_tantivy_query request.query_ast schema [] wv with
  | error e =>
    cases hsort : request.sort_by_field with
    | none => simp [build_query, hsort, hc] at h
    | some s =>
      cases hv : validate_sort_by_field s schema with
      | error e2 => simp [build_query, hsort, hv] at h
      | ok u => simp [build_query, hsort, hv, hc] at h
  | ok query =>
    have hfin : ∀ hq : query = q,
        ({ term_dict_field_names := extract_term_set_query_fields request.query_ast
           posting_field_names := extract_term_set_query_fields request.query_ast
           fast_field_names := collect_range_query_fields request.query_ast
           terms_grouped_by_field :=
             accumulate_query_terms (query_terms query) } : WarmupInfo) = w →
        w.fast_field_names = collect_range_query_fields request.query_ast ∧
        w.term_dict_field_names = extract_term_set_query_fields request.query_ast ∧
        w.posting_field_names = extract_term_set_query_fields request.query_ast ∧
        w.terms_grouped_by_field = accumulate_query_terms (query_terms q) := by
      intro hq hw
      subst hq
      subst hw
      exact ⟨rfl, rfl, rfl, rfl⟩
    cases hsort : request.sort_by_field with
    | none =>
      simp only [build_query, hsort, hc] at h
      rw [Except.ok.injEq, Prod.mk.injEq] at h
      exact hfin h.1 h.2
    | some s =>
      cases hv : validate_sort_by_field s schema with
      | error e2 => simp [build_query, hsort, hv] at h
      | ok u =>
        simp only [build_query, hsort, hv, hc] at h
        rw [Except.ok.injEq, Prod.mk.injEq] at h
        exact hfin h.1 h.2

theorem validate_sort_by_field_not_missing (s : String) (schema : Schema)
    (name : String) :
    validate_sort_by_field s schema ≠ .error (.missing_field_norms name) := by
  unfold validate_sort_by_field
  split
  · simp
  · split
    · simp
    · dsimp only
      split
      · simp
      · split <;> simp

/-- Claim C9: compiling a UserText node directly (without the parse step
having rewritten it) fails with the distinct error `UserQueryNotParsed`,
for every schema, every search-field list and every validation mode; the
strict-mode entry wrapper propagates exactly that error, and the error is a
constructor distinct from every schema/validation error. -/
theorem user_text_compile_fails :
    ∀ (q : UserTextQuery) (schema : Schema) (sf : List String) (wv : Bool),
      user_text_into_tantivy_ast_impl q schema sf wv = .error .user_query_not_parsed ∧
      into_tantivy_ast_impl (.user_text q) schema sf true = .error .user_query_not_parsed ∧
      into_tantivy_ast_call (.user_text q) schema sf true = .error .user_query_not_parsed ∧
      (∀ p : String, (InvalidQuery.user_query_not_parsed ≠ .field_does_not_exist p) ∧
        (InvalidQuery.user_query_not_parsed ≠ .json_field_root_not_searchable p) ∧
        (InvalidQuery.user_query_not_parsed ≠ .schema_error p)) := by
  intro q schema sf wv
  refine ⟨rfl, rfl, rfl, fun p => ⟨by simp, by simp, by simp⟩⟩

/-- Claim C3: whenever `build_query` succeeds, the `term_dict_field_names`
and `posting_field_names` of the returned WarmupInfo are equal: both are the
same term-set field extraction. -/
theorem build_query_term_dict_eq_posting (request : SearchRequest)
    (schema : Schema) (wv : Bool) (q : TantivyQueryAst) (w : WarmupInfo)
    (h : build_query request schema wv = .ok (q, w)) :
    w.term_dict_field_names = w.posting_field_names := by
  obtain ⟨_, h2, h3, _⟩ := build_query_ok_parts request schema wv q w h
  rw [h2, h3]

/-- Witness for claim C3 at a concrete request and schema. -/
theorem build_query_term_dict_eq_posting_witness :
    result_is_ok (build_query ⟨.match_all, none, []⟩ witness_schema true) = true ∧
    term_dict_names_of (build_query ⟨.match_all, none, []⟩ witness_schema true) =
      posting_names_of (build_query ⟨.match_all, none, []⟩ witness_schema true) := by
  constructor
  · rfl
  · exact build_query_term_dict_eq_posting ⟨.match_all, none, []⟩ witness_schema true
      .match_all_q ⟨[], [], [], []⟩ rfl

/-- Claim C4: the single entry wrapper applies the lenient-mode policy
uniformly: with validation disabled the wrapper never propagates an error
(any per-node failure becomes match-none, as the last conjunct states for
an arbitrary failing node); with validation enabled it returns the per-node
result unchanged; and a `Bool` node compiles each clause child
independently through the wrapper, so one child's failure yields match-none
in that child's position only, siblings keeping their own compiles. -/
theorem into_tantivy_ast_lenient_policy (schema : Schema) (sf : List String) :
    (∀ ast : QueryAst,
      result_is_ok (into_tantivy_ast_call ast schema sf false) = true) ∧
    (∀ ast : QueryAst,
      into_tantivy_ast_call ast schema sf true =
        into_tantivy_ast_impl ast schema sf true) ∧
    (∀ must must_not should filter : List QueryAst,
      into_tantivy_ast_impl (.bool must must_not should filter) schema sf false =
        .ok (.bool_q (must.map (lenient_child schema sf))
          (must_not.map (lenient_child schema sf))
          (should.map (lenient_child schema sf))
          (filter.map (lenient_child schema sf)))) ∧
    (∀ r : Except InvalidQuery TantivyQueryAst,
      result_is_err r = true → apply_lenient false r = .ok .match_none_q) ∧
    (∀ rq : RangeQuery,
      into_tantivy_ast_impl (.range rq) schema sf false =
        apply_lenient false (range_query_into_tantivy_ast_impl rq schema false)) := by
  refine ⟨?_, ?_, ?_, ?_, ?_⟩
  · intro ast
    exact apply_lenient_false_ok _
  · intro ast
    exact apply_lenient_true_eq _
  · intro must must_not should filter
    rw [into_tantivy_ast_impl]
    rw [into_tantivy_ast_list_lenient, into_tantivy_ast_list_lenient,
      into_tantivy_ast_list_lenient, into_tantivy_ast_list_lenient]
    exact apply_lenient_ok _ _
  · intro r herr
    cases r with
    | error e => simp [apply_lenient, result_is_err]
    | ok t => simp [result_is_err] at herr
  · intro rq
    rw [into_tantivy_ast_impl]

/-- Witness for claim C4: a concrete per-node compile that fails (a range
on the non-fast field `title`) is substituted by match-none under lenient
mode. -/
theorem into_tantivy_ast_lenient_policy_witness :
    result_is_err (range_query_into_tantivy_ast_impl title_range_query
      witness_schema false) = true ∧
    into_tantivy_ast_impl (.range title_range_query) witness_schema [] false =
      .ok .match_none_q := by
  have herr : result_is_err (range_query_into_tantivy_ast_impl title_range_query
      witness_schema false) = true := by rfl
  refine ⟨herr, ?_⟩
  have h := (into_tantivy_ast_lenient_policy witness_schema []).2.2.2
  rw [h.2 title_range_query]
  exact h.1 _ herr

/-- Claim C10: sort-by-field validation of the pseudo-field `_score`
succeeds unconditionally for every schema (it returns before any schema
lookup), and `build_query` never produces a missing-fieldnorms failure (the
fieldnorms check `validate_sort_by_score` — which does produce such
failures, as the last conjunct shows — is never invoked on any path through
`build_query`). -/
theorem score_sort_validation :
    (∀ schema : Schema, validate_sort_by_field "_score" schema = .ok ()) ∧
    (∀ (request : SearchRequest) (schema : Schema) (wv : Bool),
      is_missing_fieldnorms_error (build_query request schema wv) = false) ∧
    (∃ (schema : Schema) (fields : List Field) (name : String),
      validate_sort_by_score schema (some fields) =
        .error (.missing_field_norms name)) := by
  refine ⟨fun schema => rfl, ?_, ?_⟩
  · intro request schema wv
    cases hc : build_tantivy_query request.query_ast schema [] wv with
    | error e =>
      cases hsort : request.sort_by_field with
      | none => simp [build_query, is_missing_fieldnorms_error, hsort, hc]
      | some s =>
        cases hv : validate_sort_by_field s schema with
        | error e2 =>
          cases e2 with
          | missing_field_norms name =>
            exact absurd hv (validate_sort_by_field_not_missing s schema name)
          | unknown_sort_field name =>
            simp [build_query, is_missing_fieldnorms_error, hsort, hv]
          | sort_by_text_field name =>
            simp [build_query, is_missing_fieldnorms_error, hsort, hv]
          | sort_by_not_fast_field name =>
            simp [build_query, is_missing_fieldnorms_error, hsort, hv]
        | ok u => simp [build_query, is_missing_fieldnorms_error, hsort, hv, hc]
    | ok query =>
      cases hsort : request.sort_by_field with
      | none => simp [build_query, is_missing_fieldnorms_error, hsort, hc]
      | some s =>
        cases hv : validate_sort_by_field s schema with
        | error e2 =>
          cases e2 with
          | missing_field_norms name =>
            exact absurd hv (validate_sort_by_field_not_missing s schema name)
          | unknown_sort_field name =>
            simp [build_query, is_missing_fieldnorms_error, hsort, hv]
          | sort_by_text_field name =>
            simp [build_query, is_missing_fieldnorms_error, hsort, hv]
          | sort_by_not_fast_field name =>
            simp [build_query, is_missing_fieldnorms_error, hsort, hv]
        | ok u => simp [build_query, is_missing_fieldnorms_error, hsort, hv, hc]
  · exact ⟨witness_schema, [1], "server.running", rfl⟩

theorem mem_collect_list {x : String} {c : QueryAst} {l : List QueryAst}
    (hc : c ∈ l) (hx : x ∈ collect_range_query_fields c) :
    x ∈ collect_range_query_fields_list l := by
  induction l with
  | nil => cases hc
  | cons a rest ih =>
    rw [collect_range_query_fields_list, List.mem_append]
    cases hc with
    | head => exact Or.inl hx
    | tail _ h => exact Or.inr (ih h)

theorem occurs_range_mem_collect {rq : RangeQuery} {ast : QueryAst}
    (h : OccursIn (.range rq) ast) :
    rq.field ∈ collect_range_query_fields ast := by
  induction h with
  | refl => simp [collect_range_query_fields]
  | in_must hc _ ih =>
    simp only [collect_range_query_fields, List.mem_append]
    exact Or.inl (Or.inl (Or.inl (mem_collect_list hc ih)))
  | in_must_not hc _ ih =>
    simp only [collect_range_query_fields, List.mem_append]
    exact Or.inl (Or.inl (Or.inr (mem_collect_list hc ih)))
  | in_should hc _ ih =>
    simp only [collect_range_query_fields, List.mem_append]
    exact Or.inl (Or.inr (mem_collect_list hc ih))
  | in_filter hc _ ih =>
    simp only [collect_range_query_fields, List.mem_append]
    exact Or.inr (mem_collect_list hc ih)
  | in_boost _ ih =>
    simpa [collect_range_query_fields] using ih

/-- Claim C1: every field name referenced by any Range node anywhere in the
AST — at any nesting depth, through Boost and all four Bool clause lists —
appears in the `fast_field_names` of the WarmupInfo returned by a
successful `build_query`, and that set is exactly the pre-compilation
range-field collection over the raw AST (so it is independent of what
compilation does to any branch). -/
theorem build_query_range_fields_warm (request : SearchRequest)
    (schema : Schema) (wv : Bool) (rq : RangeQuery)
    (hok : result_is_ok (build_query request schema wv) = true)
    (hocc : OccursIn (.range rq) request.query_ast) :
    rq.field ∈ fast_names_of (build_query request schema wv) ∧
    fast_names_of (build_query request schema wv) =
      collect_range_query_fields request.query_ast := by
  cases heq : build_query request schema wv with
  | error e => rw [heq] at hok; simp [result_is_ok] at hok
  | ok p =>
    obtain ⟨q, w⟩ := p
    obtain ⟨h1, _, _, _⟩ := build_query_ok_parts request schema wv q w heq
    constructor
    · simp only [fast_names_of, h1]
      exact occurs_range_mem_collect hocc
    · simp only [fast_names_of, h1]

/-- Witness for claim C1: a Range node on a non-fast field, nested under a
Boost inside a Bool must list, compiled in lenient mode (its branch becomes
match-none), still contributes `title` to `fast_field_names`. -/
theorem build_query_range_fields_warm_witness :
    result_is_ok (build_query range_under_boost_request witness_schema false) = true ∧
    "title" ∈ fast_names_of (build_query range_under_boost_request witness_schema false) := by
  have hok : result_is_ok (build_query range_under_boost_request witness_schema false)
      = true := by rfl
  have hocc : OccursIn (.range title_range_query) range_under_boost_request.query_ast := by
    show OccursIn _ (.bool [.boost (.range title_range_query) ⟨"1.0"⟩] [] [] [])
    exact OccursIn.in_must (List.Mem.head _) (OccursIn.in_boost (OccursIn.refl _))
  exact ⟨hok, (build_query_range_fields_warm range_under_boost_request witness_schema
    false title_range_query hok hocc).1⟩

/-- Claim C2 (code bug): a TermSet node nested inside a Bool clause list is
not collected — the source's `ExtractTermSetFields` overrides the visitor
entry point `visit` itself, so the traversal never descends and only the
root node is inspected. On a concrete request whose AST holds a TermSet
with field key `title` inside a Bool must list, `build_query` succeeds but
returns empty `term_dict_field_names` and `posting_field_names`, and the
extraction of the raw AST is empty. -/
theorem term_set_fields_nested_not_collected :
    OccursIn (.term_set ⟨[("title", ["hello"])]⟩) nested_term_set_request.query_ast ∧
    result_is_ok (build_query nested_term_set_request witness_schema true) = true ∧
    term_dict_names_of (build_query nested_term_set_request witness_schema true) = [] ∧
    posting_names_of (build_query nested_term_set_request witness_schema true) = [] ∧
    extract_term_set_query_fields nested_term_set_request.query_ast = [] := by
  refine ⟨?_, by rfl, by rfl, by rfl, by rfl⟩
  show OccursIn _ (.bool [.term_set ⟨[("title", ["hello"])]⟩] [] [] [])
  exact OccursIn.in_must (List.Mem.head _) (OccursIn.refl _)

theorem lookup_update_term_entry_self (inner : List (Term × Bool)) (t : Term)
    (np : Bool) :
    lookup_term_entry (update_term_entry inner t np) t =
      some ((lookup_term_entry inner t).getD false || np) := by
  induction inner with
  | nil => simp [update_term_entry, lookup_term_entry]
  | cons p rest ih =>
    obtain ⟨t', b⟩ := p
    by_cases h : t' = t
    · subst h; simp [update_term_entry, lookup_term_entry]
    · simp [update_term_entry, lookup_term_entry, h, ih]

theorem lookup_update_term_entry_other (inner : List (Term × Bool)) (tk t : Term)
    (np : Bool) (h : tk ≠ t) :
    lookup_term_entry (update_term_entry inner tk np) t =
      lookup_term_entry inner t := by
  induction inner with
  | nil => simp [update_term_entry, lookup_term_entry, h]
  | cons p rest ih =>
    obtain ⟨t', b⟩ := p
    by_cases h2 : t' = tk
    · subst h2; simp [update_term_entry, lookup_term_entry, h]
    · simp [update_term_entry, lookup_term_entry, h2, ih]

theorem lookup_update_terms_map_self (m : List (Field × List (Term × Bool)))
    (f : Field) (t : Term) (np : Bool) :
    lookup_terms_map (update_terms_map m f t np) f t =
      some ((lookup_terms_map m f t).getD false || np) := by
  induction m with
  | nil =>
    simp [update_terms_map, lookup_terms_map, update_term_entry, lookup_term_entry]
  | cons p rest ih =>
    obtain ⟨f', inner⟩ := p
    by_cases h : f' = f
    · subst h; simp [update_terms_map, lookup_terms_map, lookup_update_term_entry_self]
    · simp [update_terms_map, lookup_terms_map, h, ih]

theorem lookup_update_terms_map_other (m : List (Field × List (Term × Bool)))
    (fk : Field) (tk : Term) (f : Field) (t : Term) (np : Bool)
    (h : ¬(fk = f ∧ tk = t)) :
    lookup_terms_map (update_terms_map m fk tk np) f t =
      lookup_terms_map m f t := by
  induction m with
  | nil =>
    by_cases hf : fk = f
    · subst hf
      have ht : tk ≠ t := fun he => h ⟨rfl, he⟩
      simp [update_terms_map, lookup_terms_map, update_term_entry,
        lookup_term_entry, ht]
    · simp [update_terms_map, lookup_terms_map, hf]
  | cons p rest ih =>
    obtain ⟨f', inner⟩ := p
    by_cases hf : f' = fk
    · subst hf
      by_cases hff : f' = f
      · subst hff
        have ht : tk ≠ t := fun he => h ⟨rfl, he⟩
        simp [update_terms_map, lookup_terms_map,
          lookup_update_term_entry_other _ _ _ _ ht]
      · simp [update_terms_map, lookup_terms_map, hff]
    · by_cases hff : f' = f
      · subst hff; simp [update_terms_map, lookup_terms_map, hf]
      · simp [update_terms_map, lookup_terms_map, hf, hff, ih]

theorem not_reported_or_false (reports : List (Field × Term × Bool)) (f : Field)
    (t : Term) (h : pair_reported reports f t = false) :
    pair_need_position_or reports f t = false := by
  induction reports with
  | nil => rfl
  | cons r rest ih =>
    unfold pair_reported at h
    rw [List.any_cons, Bool.or_eq_false_iff] at h
    unfold pair_need_position_or
    rw [List.any_cons, Bool.or_eq_false_iff]
    constructor
    · rw [h.1, Bool.false_and]
    · exact ih h.2

theorem lookup_accum_fold (f : Field) (t : Term) :
    ∀ (reports : List (Field × Term × Bool)) (m : List (Field × List (Term × Bool))),
      lookup_terms_map
          (reports.foldl (fun acc r => update_terms_map acc r.1 r.2.1 r.2.2) m) f t =
        if pair_reported reports f t then
          some ((lookup_terms_map m f t).getD false || pair_need_position_or reports f t)
        else lookup_terms_map m f t := by
  intro reports
  induction reports with
  | nil => intro m; simp [pair_reported, pair_need_position_or]
  | cons r rest ih =>
    intro m
    obtain ⟨rf, rt, rb⟩ := r
    rw [List.foldl_cons, ih]
    by_cases hm : rf = f ∧ rt = t
    · obtain ⟨h1, h2⟩ := hm
      subst h1; subst h2
      have hmatch : report_matches rf rt (rf, rt, rb) = true := by
        simp [report_matches]
      have hrep : pair_reported ((rf, rt, rb) :: rest) rf rt = true := by
        unfold pair_reported
        rw [List.any_cons, hmatch, Bool.true_or]
      have hor : pair_need_position_or ((rf, rt, rb) :: rest) rf rt =
          (rb || pair_need_position_or rest rf rt) := by
        unfold pair_need_position_or
        rw [List.any_cons, hmatch, Bool.true_and]
      rw [hrep, if_pos rfl]
      rw [lookup_update_terms_map_self]
      by_cases hrest : pair_reported rest rf rt = true
      · rw [if_pos hrest, hor]
        simp [Bool.or_assoc]
      · rw [if_neg hrest, hor]
        rw [not_reported_or_false rest rf rt (Bool.eq_false_iff.mpr hrest)]
        simp
    · have hmatch : report_matches f t (rf, rt, rb) = false := by
        simp only [report_matches, Bool.and_eq_false_iff, decide_eq_false_iff_not]
        by_cases h1 : rf = f
        · exact Or.inr (fun h2 => hm ⟨h1, h2⟩)
        · exact Or.inl h1
      have hrep : pair_reported ((rf, rt, rb) :: rest) f t =
          pair_reported rest f t := by
        unfold pair_reported
        rw [List.any_cons, hmatch, Bool.false_or]
      have hor : pair_need_position_or ((rf, rt, rb) :: rest) f t =
          pair_need_position_or rest f t := by
        unfold pair_need_position_or
        rw [List.any_cons, hmatch, Bool.false_and, Bool.false_or]
      rw [lookup_update_terms_map_other m rf rt f t rb hm, hrep, hor]

/-- Claim C5: in `terms_grouped_by_field`, the needs-position flag recorded
for a (field, term) pair reported by the compiled-term walker is the
logical OR of the need-position values of all its reported occurrences (so
a pair reported only with false maps to false, and a pair reported more
than once gets the OR); and the map assembled by a successful `build_query`
is exactly this accumulation over the walker's reports on the compiled
query. -/
theorem terms_grouped_by_field_or_accum :
    (∀ (reports : List (Field × Term × Bool)) (f : Field) (t : Term),
      pair_reported reports f t = true →
        lookup_terms_map (accumulate_query_terms reports) f t =
          some (pair_need_position_or reports f t)) ∧
    (∀ (request : SearchRequest) (schema : Schema) (wv : Bool),
      result_is_ok (build_query request schema wv) = true →
        terms_grouped_of (build_query request schema wv) =
          accumulate_query_terms (query_terms
            (compiled_query_of (build_query request schema wv)))) := by
  constructor
  · intro reports f t h
    unfold accumulate_query_terms
    rw [lookup_accum_fold, if_pos h]
    simp [lookup_terms_map]
  · intro request schema wv hok
    cases heq : build_query request schema wv with
    | error e => rw [heq] at hok; simp [result_is_ok] at hok
    | ok p =>
      obtain ⟨q, w⟩ := p
      obtain ⟨_, _, _, h4⟩ := build_query_ok_parts request schema wv q w heq
      simp [terms_grouped_of, compiled_query_of, heq, h4]

/-- Witness for claim C5: a pair reported once with false and once with
true is mapped to true, and a concrete successful `build_query` assembles
its map by this accumulation. -/
theorem terms_grouped_by_field_or_accum_witness :
    lookup_terms_map (accumulate_query_terms
        [(0, ⟨0, .str_v "a"⟩, false), (0, ⟨0, .str_v "a"⟩, true)]) 0 ⟨0, .str_v "a"⟩ =
      some true ∧
    terms_grouped_of (build_query nested_term_set_request witness_schema true) =
      accumulate_query_terms (query_terms
        (compiled_query_of (build_query nested_term_set_request witness_schema true))) := by
  constructor
  · exact terms_grouped_by_field_or_accum.1
      [(0, ⟨0, .str_v "a"⟩, false), (0, ⟨0, .str_v "a"⟩, true)] 0 ⟨0, .str_v "a"⟩ (by rfl)
  · exact terms_grouped_by_field_or_accum.2 nested_term_set_request witness_schema true
      (by rfl)

/-- Claim C6 (amended): field resolution fails with `FieldDoesNotExist` in
exactly two cases — the path resolves to neither a concrete field nor the
dynamic fallback, or it resolves with a non-empty residual sub-path to a
non-JSON field; the empty-residual JSON-object-root case fails with the
distinct error `JsonFieldRootNotSearchable`; in every other case the
resolved field, its entry and the residual path are returned. -/
theorem find_field_or_hit_dynamic_cases (schema : Schema) (full_path : String) :
    (resolve_path schema full_path = none →
      find_field_or_hit_dynamic full_path schema =
        .error (.field_does_not_exist full_path)) ∧
    (∀ (f : Field) (p : String), resolve_path schema full_path = some (f, p) →
      (((schema.get_field_entry f).field_type.value_type = .json → p.isEmpty = true →
        find_field_or_hit_dynamic full_path schema =
          .error (.json_field_root_not_searchable full_path)) ∧
      ((schema.get_field_entry f).field_type.value_type ≠ .json → p.isEmpty = false →
        find_field_or_hit_dynamic full_path schema =
          .error (.field_does_not_exist full_path)) ∧
      ((schema.get_field_entry f).field_type.value_type ≠ .json → p.isEmpty = true →
        find_field_or_hit_dynamic full_path schema =
          .ok (f, schema.get_field_entry f, p)) ∧
      ((schema.get_field_entry f).field_type.value_type = .json → p.isEmpty = false →
        find_field_or_hit_dynamic full_path schema =
          .ok (f, schema.get_field_entry f, p)))) := by
  constructor
  · intro h
    simp [find_field_or_hit_dynamic, h]
  · intro f p h
    refine ⟨?_, ?_, ?_, ?_⟩ <;> intro hj hp <;>
      simp [find_field_or_hit_dynamic, h, hp, hj]

/-- Witness for claim C6: the three resolution outcomes at concrete paths of
the witness schema. -/
theorem find_field_or_hit_dynamic_cases_witness :
    find_field_or_hit_dynamic "missing" witness_schema =
      .error (.field_does_not_exist "missing") ∧
    find_field_or_hit_dynamic "attrs" witness_schema =
      .error (.json_field_root_not_searchable "attrs") ∧
    find_field_or_hit_dynamic "num" witness_schema =
      .ok (4, witness_schema.get_field_entry 4, "") := by
  refine ⟨?_, ?_, ?_⟩
  · exact (find_field_or_hit_dynamic_cases witness_schema "missing").1 (by rfl)
  · exact ((find_field_or_hit_dynamic_cases witness_schema "attrs").2 3 ""
      (by rfl)).1 (by rfl) (by rfl)
  · exact ((find_field_or_hit_dynamic_cases witness_schema "num").2 4 ""
      (by rfl)).2.2.1 (by decide) (by rfl)

/-- Counterexample to claim C6 as stated: resolving the JSON object root
`attrs` (empty residual path) fails with `JsonFieldRootNotSearchable`, a
constructor distinct from `FieldDoesNotExist` — not with
`FieldDoesNotExist` as the claim asserts. -/
theorem find_field_json_root_error_counterexample :
    find_field_or_hit_dynamic "attrs" witness_schema =
      .error (.json_field_root_not_searchable "attrs") ∧
    is_field_does_not_exist_err (find_field_or_hit_dynamic "attrs" witness_schema)
      = false ∧
    (InvalidQuery.json_field_root_not_searchable "attrs" ≠
      InvalidQuery.field_does_not_exist "attrs") := by
  refine ⟨by rfl, by rfl, by simp⟩

/-- Claim C7: compiling a Range node whose field resolves to a non-fast
field fails with `SchemaError`; on a fast boolean or facet field it fails
with `RangeQueryNotSupportedForField` carrying the value type name and the
field name. -/
theorem range_query_error_cases (schema : Schema) (wv : Bool) (rq : RangeQuery)
    (f : Field) (entry : FieldEntry) (p : String)
    (hres : find_field_or_hit_dynamic rq.field schema = .ok (f, entry, p)) :
    (entry.is_fast = false →
      range_query_into_tantivy_ast_impl rq schema wv =
        .error (.schema_error ("Range queries are only supported for fast fields. (`"
          ++ entry.name ++ "` is not a fast field)"))) ∧
    (entry.is_fast = true → entry.field_type = .bool →
      range_query_into_tantivy_ast_impl rq schema wv =
        .error (.range_query_not_supported_for_field "bool" entry.name)) ∧
    (entry.is_fast = true → entry.field_type = .facet →
      range_query_into_tantivy_ast_impl rq schema wv =
        .error (.range_query_not_supported_for_field "facet" entry.name)) := by
  refine ⟨?_, ?_, ?_⟩
  · intro hfast
    simp [range_query_into_tantivy_ast_impl, hres, hfast]
  · intro hfast htype
    simp [range_query_into_tantivy_ast_impl, hres, hfast, htype]
  · intro hfast htype
    simp [range_query_into_tantivy_ast_impl, hres, hfast, htype]

/-- Witness for claim C7: on the witness schema (patterned on the repo's
test schema), a range on the non-fast text field `title` fails
`SchemaError`, and ranges on the fast boolean field `server.running` and
the fast facet field `tags` fail `RangeQueryNotSupportedForField` with the
type and field names. -/
theorem range_query_error_cases_witness :
    range_query_into_tantivy_ast_impl title_range_query witness_schema true =
      .error (.schema_error
        "Range queries are only supported for fast fields. (`title` is not a fast field)") ∧
    range_query_into_tantivy_ast_impl ⟨"server.running", .unbounded, .unbounded⟩
        witness_schema true =
      .error (.range_query_not_supported_for_field "bool" "server.running") ∧
    range_query_into_tantivy_ast_impl ⟨"tags", .unbounded, .unbounded⟩
        witness_schema true =
      .error (.range_query_not_supported_for_field "facet" "tags") := by
  refine ⟨?_, ?_, ?_⟩
  · exact (range_query_error_cases witness_schema true title_range_query 0
      (witness_schema.get_field_entry 0) "" (by rfl)).1 (by rfl)
  · exact (range_query_error_cases witness_schema true
      ⟨"server.running", .unbounded, .unbounded⟩ 1
      (witness_schema.get_field_entry 1) "" (by rfl)).2.1 (by rfl) (by rfl)
  · exact (range_query_error_cases witness_schema true
      ⟨"tags", .unbounded, .unbounded⟩ 2
      (witness_schema.get_field_entry 2) "" (by rfl)).2.2 (by rfl) (by rfl)

theorem compute_str_arm (fld : Field) (name : String) (fast norms : Bool)
    (analyzer_opt : Option Analyzer) :
    ∀ path value : String,
      compute_query_with_field fld ⟨name, .str ⟨analyzer_opt⟩, fast, norms⟩
          path value true =
        .ok (str_compile_from_spec fld analyzer_opt value) := by
  intro path value
  cases analyzer_opt with
  | none => rfl
  | some a =>
    simp only [compute_query_with_field, str_compile_from_spec]
    cases hl : (a value).map (fun tok => (tok.1, (⟨fld, .str_v tok.2⟩ : Term))) with
    | nil => simp [hl]
    | cons t1 rest =>
      cases rest with
      | nil => simp [hl, make_term_query]
      | cons t2 rest2 => simp [hl, make_term_query]

/-- Claim C8: compiling a Term value against a string-typed field with an
active analyzer follows the tokenization contract — zero tokens gives a
guaranteed no-match, one token a plain term match on that token, two or
more a position-ordered phrase match over the (position, token) pairs — and
with no active analyzer a plain term match on the literal verbatim; both
for the raw field dispatch and for a Term node whose field resolves to such
an entry. -/
theorem term_str_field_compile (fld : Field) (name : String) (fast norms : Bool)
    (analyzer_opt : Option Analyzer) (path value : String) :
    compute_query_with_field fld ⟨name, .str ⟨analyzer_opt⟩, fast, norms⟩
        path value true =
      .ok (str_compile_from_spec fld analyzer_opt value) ∧
    (∀ (tq : TermQuery) (schema : Schema) (sf : List String) (wv : Bool) (p : String),
      find_field_or_hit_dynamic tq.field schema =
          .ok (fld, ⟨name, .str ⟨analyzer_opt⟩, fast, norms⟩, p) →
        into_tantivy_ast_impl (.term tq) schema sf wv =
          .ok (str_compile_from_spec fld analyzer_opt tq.value)) := by
  constructor
  · exact compute_str_arm fld name fast norms analyzer_opt path value
  · intro tq schema sf wv p hres
    rw [into_tantivy_ast_impl]
    rw [term_query_into_tantivy_ast_impl]
    unfold compute_query
    rw [hres]
    dsimp only
    rw [compute_str_arm fld name fast norms analyzer_opt p tq.value]
    exact apply_lenient_ok _ _

/-- Witness for claim C8: the witness analyzer splits "hello world" into two
tokens, so the Term compile yields a position-ordered phrase match, both for
the raw dispatch and for a Term node on `title` of the witness schema. -/
theorem term_str_field_compile_witness :
    compute_query_with_field 0 ⟨"title", .str ⟨some witness_analyzer⟩, false, true⟩
        "" "hello world" true =
      .ok (.phrase_q [(0, ⟨0, .str_v "hello"⟩), (1, ⟨0, .str_v "world"⟩)]) ∧
    into_tantivy_ast_impl (.term ⟨"title", "hello world"⟩) witness_schema [] true =
      .ok (.phrase_q [(0, ⟨0, .str_v "hello"⟩), (1, ⟨0, .str_v "world"⟩)]) := by
  constructor
  · exact (term_str_field_compile 0 "title" false true (some witness_analyzer)
      "" "hello world").1
  · exact (term_str_field_compile 0 "title" false true (some witness_analyzer)
      "" "hello world").2 ⟨"title", "hello world"⟩ witness_schema [] true "" (by rfl)

end Quickwit
